import Mathlib

/-!
Shallow embedding of `src/chat-handler.js` (a universal Gemini chat relay).

The source is JavaScript, so the embedding models the JavaScript values the
handler manipulates (`JSValue`), JavaScript truthiness, property access that
can throw a `TypeError` (modelled with `Except Unit`), and the single
outbound `fetch` call, whose behaviour is passed in as a `FetchOutcome`
parameter.  The handler's `try { ... } catch` wrapper is modelled by running
the body in `Except` and mapping any thrown error to the
`"Internal server error"` result, exactly as the source's `catch` block does.

Besides the `RelayResult`, the model also reports the payload sent to the
external API (`sentPayload`), `none` when no HTTP call was issued; this is
the observable needed by the claims about "no external call is made" and
about the constructed payload.
-/

/-- JavaScript values as far as the handler inspects them: the primitives,
arrays and plain objects.  Objects are association lists of fields. -/
inductive JSValue where
  | undefined : JSValue
  | null : JSValue
  | bool : Bool → JSValue
  | num : Rat → JSValue
  | str : String → JSValue
  | arr : List JSValue → JSValue
  | obj : List (String × JSValue) → JSValue

/-- JavaScript truthiness: `undefined`, `null`, `false`, `0` and `""` are
falsy; every array and object (including empty ones) is truthy. -/
def JSValue.truthy : JSValue → Bool
  | .undefined => false
  | .null => false
  | .bool b => b
  | .num q => if q = 0 then false else true
  | .str s => if s = "" then false else true
  | .arr _ => true
  | .obj _ => true

/-- Property access `v.k`.  On `undefined` and `null` it throws a
`TypeError` (modelled as `.error ()`); on an object it returns the field's
value, or `undefined` when the field is absent; on the remaining primitives
and arrays the properties the handler reads are all absent, so the access
yields `undefined`. -/
def JSValue.getField : JSValue → String → Except Unit JSValue
  | .undefined, _ => .error ()
  | .null, _ => .error ()
  | .obj fs, k => .ok (((fs.find? (fun p => p.1 = k)).map (fun p => p.2)).getD .undefined)
  | _, _ => .ok .undefined

/-- Index access `v[0]` (the only index the handler uses).  Throws on
`undefined`/`null`, returns the head of an array (or `undefined` when
empty), the `"0"` field of an object, the first character of a non-empty
string, and `undefined` otherwise. -/
def JSValue.idx0 : JSValue → Except Unit JSValue
  | .undefined => .error ()
  | .null => .error ()
  | .arr xs => .ok (xs.headD .undefined)
  | .obj fs => .ok (((fs.find? (fun p => p.1 = "0")).map (fun p => p.2)).getD .undefined)
  | .str s => .ok (if s = "" then .undefined else .str (String.singleton s.front))
  | _ => .ok .undefined

/-- The characters removed by JavaScript `String.prototype.trim`:
ECMAScript WhiteSpace and LineTerminator code points. -/
def isJsWhitespace (c : Char) : Bool :=
  c = ' ' || c = '\t' || c = '\n' || c = '\r' ||
  c = '\x0b' || c = '\x0c' || c = '\u00A0' || c = '\uFEFF' ||
  c = '\u2028' || c = '\u2029'

/-- JavaScript `trim` on a string: drop leading and trailing whitespace. -/
def jsStringTrim (s : String) : String :=
  ⟨((s.data.dropWhile isJsWhitespace).reverse.dropWhile isJsWhitespace).reverse⟩

/-- The call `message.trim()`: defined on strings, throws a `TypeError`
on every other value (non-strings have no `trim` method). -/
def jsTrim : JSValue → Except Unit String
  | .str s => .ok (jsStringTrim s)
  | _ => .error ()

/-- The strict comparison `sender === "user"` from the role mapping. -/
def isUserSender : JSValue → Bool
  | .str "user" => true
  | _ => false

/-- One element of the `contents` array sent to the Gemini API.  In the
source each element is `{role, parts: [{text}]}` with `parts` always a
one-element array, so the element is recorded as its role and the value
placed at `parts[0].text`. -/
structure GeminiContent where
  role : String
  text : JSValue

/-- The fixed generation policy `{maxOutputTokens: 1000, temperature: 0.7}`. -/
structure GenerationConfig where
  maxOutputTokens : Nat
  temperature : Rat

/-- The JSON body of the outbound POST:
`{contents, generationConfig}`. -/
structure GeminiRequestBody where
  contents : List GeminiContent
  generationConfig : GenerationConfig

/-- The result object returned by `handleGeminiChat`: `success`,
`statusCode`, and at most one of the `reply` / `error` fields (`none`
models the field being absent from the object literal; `some .undefined`
models a present `reply` field holding `undefined`). -/
structure RelayResult where
  success : Bool
  statusCode : Nat
  reply : Option JSValue := none
  error : Option String := none

/-- The environment object: the two variables the handler reads.  A missing
variable is `undefined`. -/
structure Env where
  GEMINI_API_KEY : JSValue
  GEMINI_MODEL_NAME : JSValue

/-- Behaviour of the single `fetch` call: either the promise rejects
(network failure), or a response arrives with an HTTP status and a JSON
body — `none` when `response.json()` throws (unparseable body). -/
inductive FetchOutcome where
  | networkError : FetchOutcome
  | response : Nat → Option JSValue → FetchOutcome

/-- Model of `response.ok` per the Fetch standard: status in the range 200–299. -/
def responseOk (status : Nat) : Bool :=
  200 ≤ status && status < 300

/-- Processing of one history entry inside the `for` loop: read
`chat.sender` (this may throw); if truthy, read `chat.message`; if that is
also truthy, produce the pushed `{role, parts:[{text}]}` element, with role
`"user"` exactly when `sender === "user"` and `"model"` otherwise; a falsy
field produces nothing. -/
def entryContentOfChat (chat : JSValue) : Except Unit (Option GeminiContent) := do
  let sender ← chat.getField "sender"
  if sender.truthy then
    let msg ← chat.getField "message"
    if msg.truthy then
      return some ⟨if isUserSender sender then "user" else "model", msg⟩
    else
      return none
  else
    return none

/-- The `for` loop over the limited history, pushing the kept entries in
order; the first thrown `TypeError` aborts the whole construction. -/
def buildHistoryContents : List JSValue → Except Unit (List GeminiContent)
  | [] => .ok []
  | chat :: rest => do
    let c ← entryContentOfChat chat
    let cs ← buildHistoryContents rest
    match c with
    | some x => return x :: cs
    | none => return cs

/-- The condition
`result.candidates && result.candidates[0] && result.candidates[0].content`:
returns the value of the `&&` chain (the first falsy operand, or the last
operand), propagating any `TypeError` thrown while evaluating it. -/
def candChain (r : JSValue) : Except Unit JSValue := do
  let cands ← r.getField "candidates"
  if !cands.truthy then
    return cands
  else
    let c0 ← cands.idx0
    if !c0.truthy then
      return c0
    else
      c0.getField "content"

/-- The extraction `result.candidates[0].content.parts[0].text`, each step
able to throw a `TypeError`. -/
def extractReply (r : JSValue) : Except Unit JSValue := do
  let cands ← r.getField "candidates"
  let c0 ← cands.idx0
  let content ← c0.getField "content"
  let parts ← content.getField "parts"
  let p0 ← parts.idx0
  p0.getField "text"

/-- Interpretation of a parsed success-status body (source lines 89–110):
if the candidate chain is truthy, extract the reply and return the success
result; otherwise return the `"Invalid AI response"` failure. -/
def interpretSuccessBody (r : JSValue) : Except Unit RelayResult := do
  let chain ← candChain r
  if chain.truthy then
    let reply ← extractReply r
    return { success := true, reply := some reply, statusCode := 200 }
  else
    return { success := false, error := some "Invalid AI response", statusCode := 500 }

/-- The observable outcome of one invocation: the `RelayResult` and the
payload of the outbound HTTP call, `none` when no call was issued. -/
structure HandlerOutcome where
  result : RelayResult
  sentPayload : Option GeminiRequestBody

/-- The `try` body of `handleGeminiChat`.  The error component of the
`Except` records the payload sent before the exception was thrown (`none`
when the exception preceded the `fetch`), so that the outer `catch` can
still report whether a call was made. -/
def handleGeminiChatTry (message : JSValue) (chatHistory : List JSValue)
    (env : Env) (fetched : FetchOutcome) :
    Except (Option GeminiRequestBody) (RelayResult × Option GeminiRequestBody) :=
  if !env.GEMINI_API_KEY.truthy then
    .ok ({ success := false, error := some "API key not configured", statusCode := 500 }, none)
  else if !message.truthy then
    .ok ({ success := false, error := some "Message is required", statusCode := 400 }, none)
  else
    match jsTrim message with
    | .error _ => .error none
    | .ok trimmed =>
      if trimmed = "" then
        .ok ({ success := false, error := some "Message is required", statusCode := 400 }, none)
      else
        match buildHistoryContents (chatHistory.drop (chatHistory.length - 10)) with
        | .error _ => .error none
        | .ok historyContents =>
          let contents := historyContents ++ [⟨"user", message⟩]
          let requestBody : GeminiRequestBody := ⟨contents, ⟨1000, 7/10⟩⟩
          match fetched with
          | .networkError => .error (some requestBody)
          | .response status json =>
            if !responseOk status then
              .ok ({ success := false, error := some "AI service unavailable", statusCode := 500 },
                some requestBody)
            else
              match json with
              | none => .error (some requestBody)
              | some r =>
                match interpretSuccessBody r with
                | .error _ => .error (some requestBody)
                | .ok res => .ok (res, some requestBody)

/-- The handler `handleGeminiChat`: the `try` body with the `catch` block
mapping every thrown error to the `"Internal server error"` result. -/
def handleGeminiChat (message : JSValue) (chatHistory : List JSValue)
    (env : Env) (fetched : FetchOutcome) : HandlerOutcome :=
  match handleGeminiChatTry message chatHistory env fetched with
  | .ok (res, sent) => ⟨res, sent⟩
  | .error sent =>
    ⟨{ success := false, error := some "Internal server error", statusCode := 500 }, sent⟩

/-- The HTTP response produced by `createResponse`: status code, headers,
and the body object (the source serialises it with `JSON.stringify`; the
model keeps the structured object). -/
structure HttpResponse where
  statusCode : Nat
  headers : List (String × String)
  body : JSValue

/-- The fixed header set built at the top of `createResponse`. -/
def corsHeaders : List (String × String) :=
  [("Access-Control-Allow-Origin", "*"),
   ("Access-Control-Allow-Headers", "Content-Type"),
   ("Access-Control-Allow-Methods", "POST, OPTIONS"),
   ("Content-Type", "application/json")]

/-- Reading an optional field of the result object: an absent field reads
as `undefined`. -/
def replyFieldJS (o : Option JSValue) : JSValue :=
  o.getD .undefined

/-- Reading the `error` field (a string when present) as a JS value. -/
def errorFieldJS : Option String → JSValue
  | some s => .str s
  | none => .undefined

/-- The builder `createResponse`: fixed headers, pass-through status code,
and a body of `{reply: result.reply}` on success and `{error: result.error}`
otherwise. -/
def createResponse (result : RelayResult) : HttpResponse :=
  if result.success then
    ⟨result.statusCode, corsHeaders, .obj [("reply", replyFieldJS result.reply)]⟩
  else
    ⟨result.statusCode, corsHeaders, .obj [("error", errorFieldJS result.error)]⟩

/-- The contribution of one history entry to the constructed payload, as a
total function: the pushed element when the entry is kept, `none` when it
is skipped (the lemmas using it exclude the throwing entries separately). -/
def keptEntry (e : JSValue) : Option GeminiContent :=
  ((entryContentOfChat e).toOption).join

/-- The payload-sent component of the `try` body's outcome, on both the
normal and the thrown path. -/
def sentOf : Except (Option GeminiRequestBody) (RelayResult × Option GeminiRequestBody) →
    Option GeminiRequestBody
  | .ok (_, s) => s
  | .error s => s

/-- The result component of the `try` body's outcome: the returned result
on the normal path, the `catch` block's result on the thrown path. -/
def resultOf : Except (Option GeminiRequestBody) (RelayResult × Option GeminiRequestBody) →
    RelayResult
  | .ok (r, _) => r
  | .error _ => { success := false, error := some "Internal server error", statusCode := 500 }

/-- A concrete environment with a configured API key, for the closed
instances below. -/
def sampleEnv : Env := ⟨.str "key", .undefined⟩

/-- A concrete well-formed Gemini success body,
`{candidates: [{content: {parts: [{text: "Hello!"}]}}]}`. -/
def sampleOkBody : JSValue :=
  .obj [("candidates", .arr [.obj [("content",
     .obj [("parts", .arr [.obj [("text", .str "Hello!")]])])]])]

/-- A concrete ten-entry history, for the closed instances below. -/
def tenEntries : List JSValue :=
  List.replicate 10 (.obj [("sender", .str "user"), ("message", .str "m")])

@[simp] lemma ok_bind {α β : Type} (a : α) (f : α → Except Unit β) :
    (Except.ok a >>= f) = f a := rfl

@[simp] lemma err_bind {α β : Type} (u : Unit) (f : α → Except Unit β) :
    ((Except.error u : Except Unit α) >>= f) = Except.error u := rfl

@[simp] lemma pure_eq_ok {α : Type} (a : α) :
    (pure a : Except Unit α) = Except.ok a := rfl

lemma keptEntry_of_ok {e : JSValue} {o : Option GeminiContent}
    (h : entryContentOfChat e = .ok o) : keptEntry e = o := by
  simp [keptEntry, h, Except.toOption]

lemma getField_total {e : JSValue} (hn : e ≠ .null) (hu : e ≠ .undefined)
    (k : String) : ∃ v, e.getField k = .ok v := by
  cases e <;> first | exact ⟨_, rfl⟩ | simp_all

lemma entryContentOfChat_eq {e : JSValue} {s m : JSValue}
    (hs : e.getField "sender" = .ok s) (hm : e.getField "message" = .ok m) :
    entryContentOfChat e =
      .ok (if s.truthy then
            (if m.truthy then some ⟨if isUserSender s then "user" else "model", m⟩ else none)
           else none) := by
  unfold entryContentOfChat
  rw [hs]
  cases hst : s.truthy
  · simp [hst]
  · rw [ok_bind]
    simp only [hst, if_true]
    rw [hm, ok_bind]
    cases hmt : m.truthy <;> simp [hmt]

lemma keptEntry_eq_some {e : JSValue} {c : GeminiContent}
    (h : keptEntry e = some c) :
    ∃ s m, e.getField "sender" = .ok s ∧ e.getField "message" = .ok m ∧
      s.truthy = true ∧ m.truthy = true ∧
      c = ⟨if isUserSender s then "user" else "model", m⟩ := by
  by_cases hn : e = .null
  · subst hn; simp [keptEntry, entryContentOfChat, JSValue.getField, Except.toOption] at h
  by_cases hu : e = .undefined
  · subst hu; simp [keptEntry, entryContentOfChat, JSValue.getField, Except.toOption] at h
  obtain ⟨s, hs⟩ := getField_total hn hu "sender"
  obtain ⟨m, hm⟩ := getField_total hn hu "message"
  rw [keptEntry_of_ok (entryContentOfChat_eq hs hm)] at h
  refine ⟨s, m, hs, hm, ?_⟩
  cases hst : s.truthy <;> rw [hst] at h
  · simp at h
  cases hmt : m.truthy <;> rw [hmt] at h
  · simp at h
  · simp at h
    exact ⟨rfl, rfl, h.symm⟩

lemma buildHistoryContents_ok {l : List JSValue} {cs : List GeminiContent}
    (h : buildHistoryContents l = .ok cs) : cs = l.filterMap keptEntry := by
  induction l generalizing cs with
  | nil =>
      simp only [buildHistoryContents] at h
      cases h
      simp
  | cons e rest ih =>
      rw [buildHistoryContents] at h
      cases hec : entryContentOfChat e with
      | error u => rw [hec] at h; simp at h
      | ok o =>
          rw [hec, ok_bind] at h
          cases hbr : buildHistoryContents rest with
          | error u => rw [hbr] at h; simp at h
          | ok cs' =>
              rw [hbr, ok_bind] at h
              rw [List.filterMap_cons, keptEntry_of_ok hec]
              cases o with
              | some x =>
                  simp only [pure, Except.pure] at h
                  cases h
                  rw [← ih hbr]
              | none =>
                  simp only [pure, Except.pure] at h
                  cases h
                  exact ih hbr

lemma handleGeminiChat_sentPayload_eq (msg : JSValue) (hist : List JSValue)
    (env : Env) (f : FetchOutcome) :
    (handleGeminiChat msg hist env f).sentPayload
      = sentOf (handleGeminiChatTry msg hist env f) := by
  unfold handleGeminiChat
  cases handleGeminiChatTry msg hist env f with
  | ok pr => cases pr; rfl
  | error s => rfl

lemma handleGeminiChat_sent {msg : JSValue} {hist : List JSValue} {env : Env}
    {f : FetchOutcome} {p : GeminiRequestBody}
    (h : (handleGeminiChat msg hist env f).sentPayload = some p) :
    ∃ cs, buildHistoryContents (hist.drop (hist.length - 10)) = .ok cs ∧
      p = ⟨cs ++ [⟨"user", msg⟩], ⟨1000, 7/10⟩⟩ := by
  rw [handleGeminiChat_sentPayload_eq] at h
  cases hk : env.GEMINI_API_KEY.truthy with
  | false => simp_all [handleGeminiChatTry, sentOf]
  | true =>
  cases hm : msg.truthy with
  | false => simp_all [handleGeminiChatTry, sentOf]
  | true =>
  cases ht : jsTrim msg with
  | error u => simp_all [handleGeminiChatTry, sentOf]
  | ok trimmed =>
  by_cases htr : trimmed = ""
  · simp_all [handleGeminiChatTry, sentOf]
  cases hb : buildHistoryContents (hist.drop (hist.length - 10)) with
  | error u => simp_all [handleGeminiChatTry, sentOf]
  | ok cs =>
  refine ⟨cs, rfl, ?_⟩
  cases f with
  | networkError => simp_all [handleGeminiChatTry, sentOf]
  | response status json =>
  cases hok : responseOk status with
  | false => simp_all [handleGeminiChatTry, sentOf]
  | true =>
  cases json with
  | none => simp_all [handleGeminiChatTry, sentOf]
  | some r =>
  cases hi : interpretSuccessBody r with
  | error u => simp_all [handleGeminiChatTry, sentOf]
  | ok res => simp_all [handleGeminiChatTry, sentOf]

lemma getField_ok_not_null {e : JSValue} {k : String} {v : JSValue}
    (h : e.getField k = .ok v) : e ≠ .null ∧ e ≠ .undefined := by
  constructor <;> rintro rfl <;> simp [JSValue.getField] at h

lemma handleGeminiChat_result_eq (msg : JSValue) (hist : List JSValue)
    (env : Env) (f : FetchOutcome) :
    (handleGeminiChat msg hist env f).result
      = resultOf (handleGeminiChatTry msg hist env f) := by
  unfold handleGeminiChat resultOf
  cases handleGeminiChatTry msg hist env f with
  | ok pr => cases pr; rfl
  | error s => rfl

lemma interpretSuccessBody_ok {r : JSValue} {res : RelayResult}
    (h : interpretSuccessBody r = .ok res) :
    res = ⟨false, 500, none, some "Invalid AI response"⟩ ∨
    ∃ v, res = ⟨true, 200, some v, none⟩ := by
  unfold interpretSuccessBody at h
  cases hc : candChain r with
  | error u => rw [hc] at h; simp at h
  | ok chain =>
    rw [hc, ok_bind] at h
    cases hct : chain.truthy <;> rw [hct] at h
    · simp at h
      exact Or.inl h.symm
    · cases he : extractReply r with
      | error u => rw [he] at h; simp at h
      | ok v =>
        rw [he, ok_bind] at h
        simp at h
        exact Or.inr ⟨v, h.symm⟩

lemma handleGeminiChat_result_shape (msg : JSValue) (hist : List JSValue)
    (env : Env) (f : FetchOutcome) :
    ((handleGeminiChat msg hist env f).result.success = true ∧
     (∃ v, (handleGeminiChat msg hist env f).result.reply = some v) ∧
     (handleGeminiChat msg hist env f).result.error = none) ∨
    ((handleGeminiChat msg hist env f).result.success = false ∧
     (∃ e, (handleGeminiChat msg hist env f).result.error = some e) ∧
     (handleGeminiChat msg hist env f).result.reply = none) := by
  rw [handleGeminiChat_result_eq]
  cases hk : env.GEMINI_API_KEY.truthy with
  | false => simp_all [handleGeminiChatTry, resultOf]
  | true =>
  cases hm : msg.truthy with
  | false => simp_all [handleGeminiChatTry, resultOf]
  | true =>
  cases ht : jsTrim msg with
  | error u => simp_all [handleGeminiChatTry, resultOf]
  | ok trimmed =>
  by_cases htr : trimmed = ""
  · simp_all [handleGeminiChatTry, resultOf]
  cases hb : buildHistoryContents (hist.drop (hist.length - 10)) with
  | error u => simp_all [handleGeminiChatTry, resultOf]
  | ok cs =>
  cases f with
  | networkError => simp_all [handleGeminiChatTry, resultOf]
  | response status json =>
  cases hok : responseOk status with
  | false => simp_all [handleGeminiChatTry, resultOf]
  | true =>
  cases json with
  | none => simp_all [handleGeminiChatTry, resultOf]
  | some r =>
  cases hi : interpretSuccessBody r with
  | error u => simp_all [handleGeminiChatTry, resultOf]
  | ok res =>
    rcases interpretSuccessBody_ok hi with hres | ⟨v, hres⟩ <;>
      simp_all [handleGeminiChatTry, resultOf]

lemma handleGeminiChatTry_fetch {msg : JSValue} {hist : List JSValue} {env : Env}
    {s : String} {cs : List GeminiContent} (f : FetchOutcome)
    (hkey : env.GEMINI_API_KEY.truthy = true)
    (hmsg : msg = .str s) (htrim : jsStringTrim s ≠ "")
    (hhist : buildHistoryContents (hist.drop (hist.length - 10)) = .ok cs) :
    handleGeminiChatTry msg hist env f =
      (match f with
       | .networkError => .error (some ⟨cs ++ [⟨"user", msg⟩], ⟨1000, 7/10⟩⟩)
       | .response status json =>
         if !responseOk status then
           .ok (⟨false, 500, none, some "AI service unavailable"⟩,
             some ⟨cs ++ [⟨"user", msg⟩], ⟨1000, 7/10⟩⟩)
         else
           match json with
           | none => .error (some ⟨cs ++ [⟨"user", msg⟩], ⟨1000, 7/10⟩⟩)
           | some r =>
             match interpretSuccessBody r with
             | .error _ => .error (some ⟨cs ++ [⟨"user", msg⟩], ⟨1000, 7/10⟩⟩)
             | .ok res => .ok (res, some ⟨cs ++ [⟨"user", msg⟩], ⟨1000, 7/10⟩⟩)) := by
  subst hmsg
  have hs : s ≠ "" := fun h => htrim (by rw [h]; rfl)
  have hmt : (JSValue.str s).truthy = true := by simp [JSValue.truthy, hs]
  unfold handleGeminiChatTry
  rw [hkey, hmt]
  simp only [Bool.not_true, jsTrim, if_neg htrim, hhist, Bool.false_eq_true, ite_false]

/-- C2: for every invocation and every behaviour of the external call, the
returned result populates exactly one of `reply`/`error`, discriminated by
`success`: `reply` is present precisely when `success` is true and `error`
precisely when it is false. -/
theorem C2_reply_error_discriminated (msg : JSValue) (hist : List JSValue)
    (env : Env) (f : FetchOutcome) :
    (handleGeminiChat msg hist env f).result.reply.isSome
        = (handleGeminiChat msg hist env f).result.success ∧
    (handleGeminiChat msg hist env f).result.error.isSome
        = !(handleGeminiChat msg hist env f).result.success := by
  rcases handleGeminiChat_result_shape msg hist env f with
    ⟨hs, ⟨v, hr⟩, he⟩ | ⟨hs, ⟨e, he⟩, hr⟩ <;> simp [hs, hr, he]

/-- C3: with a configured API key, an absent, empty or whitespace-only
message yields the 400 "Message is required" result and no external call. -/
theorem C3_blank_message (msg : JSValue) (hist : List JSValue) (env : Env)
    (f : FetchOutcome) (hkey : env.GEMINI_API_KEY.truthy = true)
    (h : msg = .undefined ∨ ∃ s, msg = .str s ∧ jsStringTrim s = "") :
    handleGeminiChat msg hist env f
      = ⟨⟨false, 400, none, some "Message is required"⟩, none⟩ := by
  rcases h with h | ⟨s, h, htrim⟩
  · subst h
    unfold handleGeminiChat handleGeminiChatTry
    rw [hkey]
    rfl
  · subst h
    by_cases hs : s = ""
    · subst hs
      unfold handleGeminiChat handleGeminiChatTry
      rw [hkey]
      rfl
    · have hmt : (JSValue.str s).truthy = true := by simp [JSValue.truthy, hs]
      unfold handleGeminiChat handleGeminiChatTry
      rw [hkey, hmt]
      simp only [Bool.not_true, Bool.false_eq_true, ite_false, jsTrim, htrim, ite_true]

/-- Witness for C3 at the concrete whitespace message `" "`. -/
theorem C3_blank_message_witness :
    handleGeminiChat (.str " ") [] sampleEnv .networkError
      = ⟨⟨false, 400, none, some "Message is required"⟩, none⟩ :=
  C3_blank_message (.str " ") [] sampleEnv .networkError rfl
    (Or.inr ⟨" ", rfl, rfl⟩)

/-- C4: with no configured API key (absent or empty), the result is the 500
"API key not configured" result and no external call is made, for every
message — the key check short-circuits before message validation. -/
theorem C4_no_api_key (msg : JSValue) (hist : List JSValue) (env : Env)
    (f : FetchOutcome)
    (h : env.GEMINI_API_KEY = .undefined ∨ env.GEMINI_API_KEY = .str "") :
    handleGeminiChat msg hist env f
      = ⟨⟨false, 500, none, some "API key not configured"⟩, none⟩ := by
  have hk : env.GEMINI_API_KEY.truthy = false := by
    rcases h with h | h <;> rw [h] <;> rfl
  unfold handleGeminiChat handleGeminiChatTry
  rw [hk]
  rfl

/-- Witness for C4 with the key absent and the message also absent. -/
theorem C4_no_api_key_witness :
    handleGeminiChat .undefined [] ⟨.undefined, .undefined⟩ .networkError
      = ⟨⟨false, 500, none, some "API key not configured"⟩, none⟩ :=
  C4_no_api_key .undefined [] ⟨.undefined, .undefined⟩ .networkError (Or.inl rfl)

/-- C5: the whole invocation depends only on the last 10 history entries:
prefixing any entries before a length-10 suffix changes nothing observable
(neither the result nor the payload sent). -/
theorem C5_last_ten (msg : JSValue) (env : Env) (f : FetchOutcome)
    (pre post : List JSValue) (hpost : post.length = 10) :
    handleGeminiChat msg (pre ++ post) env f = handleGeminiChat msg post env f := by
  have hdrop : (pre ++ post).drop ((pre ++ post).length - 10)
      = post.drop (post.length - 10) := by
    rw [List.length_append, hpost, Nat.add_sub_cancel, Nat.sub_self,
      List.drop_zero, List.drop_left]
  unfold handleGeminiChat handleGeminiChatTry
  rw [hdrop]

/-- Witness for C5: one extra entry before ten entries is dropped. -/
theorem C5_last_ten_witness :
    handleGeminiChat (.str "hi") ([.null] ++ tenEntries) sampleEnv .networkError
      = handleGeminiChat (.str "hi") tenEntries sampleEnv .networkError :=
  C5_last_ten (.str "hi") sampleEnv .networkError [.null] tenEntries rfl

/-- C8: `createResponse` always emits the same fixed header set, passes the
status code through unchanged, and bodies `{reply: result.reply}` on
success and `{error: result.error}` on failure. -/
theorem C8_createResponse_shape (r : RelayResult) :
    (createResponse r).headers
        = [("Access-Control-Allow-Origin", "*"),
           ("Access-Control-Allow-Headers", "Content-Type"),
           ("Access-Control-Allow-Methods", "POST, OPTIONS"),
           ("Content-Type", "application/json")] ∧
    (createResponse r).statusCode = r.statusCode ∧
    (createResponse r).body
        = (if r.success then JSValue.obj [("reply", replyFieldJS r.reply)]
           else JSValue.obj [("error", errorFieldJS r.error)]) := by
  unfold createResponse
  cases hs : r.success <;> simp [hs, corsHeaders]

/-- C9: once validation passed and the external call returned a non-success
status, the result is the 500 "AI service unavailable" failure, for every
status value and every body; the upstream status is not propagated. -/
theorem C9_upstream_failure (hist : List JSValue) (env : Env) (msg : JSValue)
    (s : String) (cs : List GeminiContent) (status : Nat) (json : Option JSValue)
    (hkey : env.GEMINI_API_KEY.truthy = true)
    (hmsg : msg = .str s) (htrim : jsStringTrim s ≠ "")
    (hhist : buildHistoryContents (hist.drop (hist.length - 10)) = .ok cs)
    (hstatus : responseOk status = false) :
    (handleGeminiChat msg hist env (.response status json)).result
      = ⟨false, 500, none, some "AI service unavailable"⟩ := by
  rw [handleGeminiChat_result_eq, handleGeminiChatTry_fetch _ hkey hmsg htrim hhist]
  simp only [hstatus, Bool.not_false, ite_true]
  rfl

/-- Witness for C9 at upstream status 503. -/
theorem C9_upstream_failure_witness :
    (handleGeminiChat (.str "hi") [] sampleEnv (.response 503 (some (.str "oops")))).result
      = ⟨false, 500, none, some "AI service unavailable"⟩ :=
  C9_upstream_failure [] sampleEnv (.str "hi") "hi" [] 503 (some (.str "oops"))
    rfl rfl (by decide) rfl rfl

/-- C10: a history entry whose `sender` or `message` field holds the empty
string is skipped exactly like one missing the field entirely: the loop
tests the fields for truthiness, and both `""` and `undefined` are falsy. -/
theorem C10_falsy_fields_excluded :
    (∀ e, e.getField "sender" = .ok (.str "") → entryContentOfChat e = .ok none) ∧
    (∀ e s, e.getField "sender" = .ok s → s.truthy = true →
        e.getField "message" = .ok (.str "") → entryContentOfChat e = .ok none) ∧
    (∀ e, e.getField "sender" = .ok .undefined → entryContentOfChat e = .ok none) ∧
    (∀ e s, e.getField "sender" = .ok s → s.truthy = true →
        e.getField "message" = .ok .undefined → entryContentOfChat e = .ok none) := by
  refine ⟨?_, ?_, ?_, ?_⟩
  · intro e h
    obtain ⟨hn, hu⟩ := getField_ok_not_null h
    obtain ⟨m, hm⟩ := getField_total hn hu "message"
    rw [entryContentOfChat_eq h hm]
    rfl
  · intro e s hs hst hm
    rw [entryContentOfChat_eq hs hm, hst]
    rfl
  · intro e h
    obtain ⟨hn, hu⟩ := getField_ok_not_null h
    obtain ⟨m, hm⟩ := getField_total hn hu "message"
    rw [entryContentOfChat_eq h hm]
    rfl
  · intro e s hs hst hm
    rw [entryContentOfChat_eq hs hm, hst]
    rfl

/-- Witness for C10: an entry with an empty-string sender is skipped. -/
theorem C10_falsy_fields_excluded_witness :
    entryContentOfChat (.obj [("sender", .str ""), ("message", .str "m")]) = .ok none :=
  C10_falsy_fields_excluded.1 (.obj [("sender", .str ""), ("message", .str "m")]) rfl

/-- C6 refuted: a `null` history entry — which has neither a `sender` nor a
`message` field — is not silently excluded: reading `chat.sender` throws,
so the relay returns the catch-all "Internal server error" and never calls
the external API, whereas the same invocation without that entry succeeds. -/
theorem C6_counterexample :
    handleGeminiChat (.str "hi") [.null] sampleEnv (.response 200 (some sampleOkBody))
      = ⟨⟨false, 500, none, some "Internal server error"⟩, none⟩ ∧
    JSValue.null.getField "sender" = .error () ∧
    (handleGeminiChat (.str "hi") [] sampleEnv (.response 200 (some sampleOkBody))).result
      = ⟨true, 200, some (.str "Hello!"), none⟩ :=
  ⟨rfl, rfl, rfl⟩

/-- C6 (amended): a history entry on which field access succeeds (any value
but `null`/`undefined`) and that lacks a `sender` or a `message` field is
excluded from the constructed payload without error, leaving the processing
of the remaining entries — and hence their relative order — unchanged; the
kept entries appear exactly as the in-order `filterMap` of the history. -/
theorem C6_missing_fields_excluded :
    (∀ e, (e.getField "sender" = .ok .undefined ∨ e.getField "message" = .ok .undefined) →
        entryContentOfChat e = .ok none) ∧
    (∀ e rest, entryContentOfChat e = .ok none →
        buildHistoryContents (e :: rest) = buildHistoryContents rest) ∧
    (∀ l cs, buildHistoryContents l = .ok cs → cs = l.filterMap keptEntry) := by
  refine ⟨?_, ?_, ?_⟩
  · intro e h
    have hne : e ≠ .null ∧ e ≠ .undefined := by
      rcases h with h | h <;> exact getField_ok_not_null h
    obtain ⟨s, hs⟩ := getField_total hne.1 hne.2 "sender"
    obtain ⟨m, hm⟩ := getField_total hne.1 hne.2 "message"
    rw [entryContentOfChat_eq hs hm]
    rcases h with h | h
    · rw [hs] at h
      cases h
      rfl
    · rw [hm] at h
      cases h
      cases hst : s.truthy <;> simp [JSValue.truthy]
  · intro e rest h
    rw [buildHistoryContents, h, ok_bind]
    cases buildHistoryContents rest <;> rfl
  · intro l cs h
    exact buildHistoryContents_ok h

/-- Witness for C6 (amended): an entry with only a `message` field is
skipped and the following valid entry still contributes. -/
theorem C6_missing_fields_excluded_witness :
    entryContentOfChat (.obj [("message", .str "m")]) = .ok none ∧
    buildHistoryContents
        [.obj [("message", .str "m")], .obj [("sender", .str "u"), ("message", .str "m")]]
      = buildHistoryContents [.obj [("sender", .str "u"), ("message", .str "m")]] := by
  have h1 := C6_missing_fields_excluded.1 (.obj [("message", .str "m")]) (Or.inl rfl)
  exact ⟨h1, C6_missing_fields_excluded.2.1 _ _ h1⟩

/-- C7: whenever a payload is sent, its contents are the kept history
entries in order followed by the new message as a trailing "user" entry
(so the new message is always last), and every kept entry's role is
"user" exactly when its sender was the string "user" and "model" for any
other sender value. -/
theorem C7_contents_shape (msg : JSValue) (hist : List JSValue) (env : Env)
    (f : FetchOutcome) (p : GeminiRequestBody)
    (h : (handleGeminiChat msg hist env f).sentPayload = some p) :
    p.contents = (hist.drop (hist.length - 10)).filterMap keptEntry ++ [⟨"user", msg⟩] ∧
    p.contents.getLast? = some ⟨"user", msg⟩ ∧
    (∀ e c, keptEntry e = some c → ∃ s, e.getField "sender" = .ok s ∧ s.truthy = true ∧
        c.role = if isUserSender s then "user" else "model") := by
  obtain ⟨cs, hb, hp⟩ := handleGeminiChat_sent h
  subst hp
  refine ⟨?_, ?_, ?_⟩
  · rw [← buildHistoryContents_ok hb]
  · simp
  · intro e c hc
    obtain ⟨s, m, hs, hm, hst, hmt, hcc⟩ := keptEntry_eq_some hc
    exact ⟨s, hs, hst, by rw [hcc]⟩

/-- Witness for C7 on an empty history: the only entry is the new message. -/
theorem C7_contents_shape_witness :
    ([⟨"user", .str "hi"⟩] : List GeminiContent)
      = ([] : List JSValue).filterMap keptEntry ++ [⟨"user", .str "hi"⟩] :=
  (C7_contents_shape (.str "hi") [] sampleEnv (.response 503 (some (.str "x")))
      ⟨[⟨"user", .str "hi"⟩], ⟨1000, 7/10⟩⟩ rfl).1

/-- C1 refuted: a success-status body with a malformed candidate structure
does not always yield "Invalid AI response": with
`{candidates: [{content: {}}]}` the truthiness guard passes (an empty
object is truthy) but reading `content.parts[0]` throws, so the handler
returns the catch-all "Internal server error" instead. -/
theorem C1_counterexample :
    (handleGeminiChat (.str "hi") [] sampleEnv
        (.response 200 (some (.obj [("candidates", .arr [.obj [("content", .obj [])]])])))).result
      = ⟨false, 500, none, some "Internal server error"⟩ ∧
    ("Internal server error" : String) ≠ "Invalid AI response" :=
  ⟨rfl, by decide⟩

/-- C1 (amended): on every success (2xx) HTTP status with parsed body `r`,
the result is determined by the guard
`candidates && candidates[0] && candidates[0].content`:
if the guard comes out falsy the result is the 500 "Invalid AI response";
if it is truthy and `candidates[0].content.parts[0].text` is readable the
result is success 200 with that value as the reply (even `undefined`);
if it is truthy but that read throws the result is the 500
"Internal server error"; and if evaluating the guard itself throws the
result is likewise the 500 "Internal server error". -/
theorem C1_success_interpretation (hist : List JSValue) (env : Env)
    (msg : JSValue) (r : JSValue) (s : String) (cs : List GeminiContent)
    (status : Nat)
    (hkey : env.GEMINI_API_KEY.truthy = true)
    (hmsg : msg = .str s) (htrim : jsStringTrim s ≠ "")
    (hhist : buildHistoryContents (hist.drop (hist.length - 10)) = .ok cs)
    (hok : responseOk status = true) :
    (∀ v, candChain r = .ok v → v.truthy = false →
        (handleGeminiChat msg hist env (.response status (some r))).result
          = ⟨false, 500, none, some "Invalid AI response"⟩) ∧
    (∀ v t, candChain r = .ok v → v.truthy = true → extractReply r = .ok t →
        (handleGeminiChat msg hist env (.response status (some r))).result
          = ⟨true, 200, some t, none⟩) ∧
    (∀ v, candChain r = .ok v → v.truthy = true → extractReply r = .error () →
        (handleGeminiChat msg hist env (.response status (some r))).result
          = ⟨false, 500, none, some "Internal server error"⟩) ∧
    (candChain r = .error () →
        (handleGeminiChat msg hist env (.response status (some r))).result
          = ⟨false, 500, none, some "Internal server error"⟩) := by
  have hres : ∀ out : RelayResult, interpretSuccessBody r = .ok out →
      (handleGeminiChat msg hist env (.response status (some r))).result = out := by
    intro out hi
    rw [handleGeminiChat_result_eq, handleGeminiChatTry_fetch _ hkey hmsg htrim hhist]
    simp only [hok, Bool.not_true, Bool.false_eq_true, ite_false, hi]
    rfl
  have hthrow : interpretSuccessBody r = .error () →
      (handleGeminiChat msg hist env (.response status (some r))).result
        = ⟨false, 500, none, some "Internal server error"⟩ := by
    intro hi
    rw [handleGeminiChat_result_eq, handleGeminiChatTry_fetch _ hkey hmsg htrim hhist]
    simp only [hok, Bool.not_true, Bool.false_eq_true, ite_false, hi]
    rfl
  refine ⟨?_, ?_, ?_, ?_⟩
  · intro v hc hv
    refine hres _ ?_
    unfold interpretSuccessBody
    rw [hc, ok_bind, hv]
    rfl
  · intro v t hc hv he
    refine hres _ ?_
    unfold interpretSuccessBody
    rw [hc, ok_bind, hv]
    simp [he]
  · intro v hc hv he
    refine hthrow ?_
    unfold interpretSuccessBody
    rw [hc, ok_bind, hv]
    simp [he]
  · intro hc
    refine hthrow ?_
    unfold interpretSuccessBody
    rw [hc]
    rfl

/-- Witness for C1 (amended) on the well-formed sample body at the
non-200 success status 201: the extracted text is returned as the reply. -/
theorem C1_success_interpretation_witness :
    (handleGeminiChat (.str "hi") [] sampleEnv (.response 201 (some sampleOkBody))).result
      = ⟨true, 200, some (.str "Hello!"), none⟩ :=
  (C1_success_interpretation [] sampleEnv (.str "hi") sampleOkBody "hi" [] 201
      rfl rfl (by decide) rfl rfl).2.1
    (.obj [("parts", .arr [.obj [("text", .str "Hello!")]])]) (.str "Hello!") rfl rfl rfl
